import Mathlib

/-!
Verification development for the OPDSensor dashboard (shallow embedding).

The program is a small OBD-II telemetry dashboard:
  * `obd_service.py` — `OBDService`: connection management and per-PID queries;
  * `app.py`        — `AppController`: background poll loop (`_obd_worker`)
    publishing `(state, data)` through a lock, and a UI tick (`_ui_tick`)
    reading it;
  * `ui_tk.py`      — `DashboardUI`: three screens and live-widget refresh;
  * `logger.py`     — `DataLogger`: CSV rows per live snapshot;
  * `config.py`     — constants.

Modelling conventions:
  * pint `Quantity` values are modelled as a rational magnitude; unit
    conversions (`.to("mph")`, `.to("degF")`) are the exact linear maps on the
    magnitude.  Python decimal string formatting (`:.0f`, `:.1f`, `:,`) is
    abstracted to rendering the rounded rational; no claim depends on the
    digit-level spelling of a number, only on placeholder-vs-number and
    empty-vs-nonempty.
  * Python truthiness (`if speed:`) on an optional Quantity is `False` for
    `None` and for a zero magnitude — modelled by `pyTruthy`.
  * The worker's interaction with the external device and logger is an
    oracle per poll cycle (`CycleOracle`): the result of `ensure_connected`,
    the connection state seen by `read_snapshot`, the per-command query
    outcomes, and whether `logger.log` raises.
  * The shared channel `_state`/`_data` is written and read entirely inside
    `with self._lock:` blocks, so each publish and each read is one atomic
    critical section; `Channel.publish`/`Channel.read` model those sections.
-/

/-- The five PID keys of `OBDService._CMDS` (obd_service.py). -/
inductive Key where
  | rpm
  | speed
  | coolant_temp
  | throttle_pos
  | engine_load
deriving DecidableEq, Repr

/-- A pint Quantity, reduced to its rational magnitude.  The unit is fixed by
the PID (python-obd returns rpm in rpm, speed in kph, coolant in degC,
throttle/load in percent); conversions below act on the magnitude. -/
structure Quantity where
  magnitude : ℚ
deriving DecidableEq, Repr

/-- `speed.to("mph")` where the stored magnitude is kph: 1 mile = 1.609344 km,
so mph = kph * 15625 / 25146 (exact). -/
def Quantity.to_mph (q : Quantity) : ℚ := q.magnitude * 15625 / 25146

/-- `q.to("kph")` — the speed magnitude is already kph. -/
def Quantity.to_kph (q : Quantity) : ℚ := q.magnitude

/-- `q.to("degC")` — the coolant magnitude is already degC. -/
def Quantity.to_degC (q : Quantity) : ℚ := q.magnitude

/-- `q.to("degF")` from degC. -/
def Quantity.to_degF (q : Quantity) : ℚ := q.magnitude * 9 / 5 + 32

/-- Python truthiness of an optional Quantity (`if speed:` in ui_tk.py and
logger.py): `None` and a zero magnitude are falsy; anything else truthy. -/
def pyTruthy : Option Quantity → Bool
  | none => false
  | some q => q.magnitude != 0

/-- The key list of `OBDService._CMDS`, in source (dict-insertion) order. -/
def CMDS : List Key := [.rpm, .speed, .coolant_temp, .throttle_pos, .engine_load]

/-- Outcome of one `connection.query(cmd)` call as seen by `_safe_query`:
it raised, it returned a null response, or it returned a value. -/
inductive QueryResult where
  | ex
  | null
  | val (q : Quantity)
deriving DecidableEq, Repr

/-- `OBDService._safe_query` (obd_service.py lines 64-70): returns the value,
or `None` on any exception or null response. -/
def safe_query : QueryResult → Option Quantity
  | .ex => none
  | .null => none
  | .val q => some q

/-- The connection state observed inside `read_snapshot`:
`conn_present` is `self.connection is not None`, `is_connected` is
`self.connection.is_connected()` (only meaningful when present). -/
structure ConnState where
  conn_present : Bool
  is_connected : Bool
deriving DecidableEq, Repr

/-- A snapshot dict: association list keyed by `Key` in dict order, values
optional Quantities — the dicts built by `read_snapshot`. -/
def Snapshot := List (Key × Option Quantity)
deriving DecidableEq, Repr

/-- Python `dict.get(k)`: `None` both for a missing key and a stored `None`. -/
def Snapshot.get (s : Snapshot) (k : Key) : Option Quantity :=
  match List.lookup k s with
  | none => none
  | some v => v

/-- `OBDService.read_snapshot` (obd_service.py lines 72-79): all keys map to
`None` when the connection is absent or not connected, otherwise each key gets
its own `_safe_query` result, independently.  `results` gives the outcome of
`connection.query` per command. -/
def read_snapshot (cs : ConnState) (results : Key → QueryResult) : Snapshot :=
  if !(cs.conn_present && cs.is_connected) then
    CMDS.map (fun k => (k, none))
  else
    CMDS.map (fun k => (k, safe_query (results k)))

/-- The three values of `AppController._state` ("disconnected" | "waiting" |
"live", app.py line 39). -/
inductive WorkerState where
  | disconnected
  | waiting
  | live
deriving DecidableEq, Repr

/-- The pair published to / read from the shared channel: `_state` and
`_data`. -/
structure SharedState where
  state : WorkerState
  data : Snapshot
deriving DecidableEq, Repr

/-- `{}` — the empty dict stored on the disconnected branch. -/
def emptySnapshot : Snapshot := []

/-- `any(v is not None for v in snapshot.values())` (app.py line 71). -/
def has_data (s : Snapshot) : Bool := s.any (fun kv => kv.2.isSome)

/-- Environment of one iteration of `_obd_worker`:
`ensure_connected` is what `self.obd.ensure_connected()` returned;
`conn` is the connection state at `read_snapshot` time (the link can drop in
between); `results` the per-command query outcomes; `logger_raises` whether
`self.logger.log(snapshot)` would raise this cycle. -/
structure CycleOracle where
  ensure_connected : Bool
  conn : ConnState
  results : Key → QueryResult
  logger_raises : Bool

/-- Observable outcome of one `_obd_worker` iteration: the `(state, data)`
pair written under the lock, the commands actually queried, and the snapshot
`logger.log` was invoked with (if it was invoked at all). -/
structure CycleOutcome where
  published : SharedState
  queried : List Key
  logged : Option Snapshot
deriving Repr

/-- One iteration of `AppController._obd_worker` (app.py lines 57-84),
given `log_enabled` = `LOG_ENABLED` (i.e. `self.logger` is not `None`).
The disconnected branch publishes `("disconnected", {})` and queries nothing;
otherwise the snapshot is read, classified `live` iff any value is present,
published, and logged iff live and logging enabled.  `logger.log` runs inside
`try: ... except Exception: pass`, so `o.logger_raises` influences nothing. -/
def obd_cycle (log_enabled : Bool) (o : CycleOracle) : CycleOutcome :=
  if !o.ensure_connected then
    { published := ⟨.disconnected, emptySnapshot⟩, queried := [], logged := none }
  else
    let snapshot := read_snapshot o.conn o.results
    let hd := has_data snapshot
    { published := ⟨if hd then .live else .waiting, snapshot⟩
      queried := if o.conn.conn_present && o.conn.is_connected then CMDS else []
      logged := if hd && log_enabled then some snapshot else none }

/-- The sequence of cycle outcomes of the worker loop over a list of cycle
environments.  State `_state`/`_data` carries no information between
iterations (classification is recomputed from scratch each cycle), so the
trace is a per-cycle map. -/
def worker_trace (log_enabled : Bool) (os : List CycleOracle) : List CycleOutcome :=
  os.map (obd_cycle log_enabled)

/-- The shared channel: the fields `_state` and `_data` of `AppController`,
always accessed under `self._lock`. -/
structure Channel where
  state : WorkerState
  data : Snapshot
deriving DecidableEq, Repr

/-- Initial channel contents (app.py lines 39-40): `"disconnected"`, `{}`. -/
def initialChannel : Channel := ⟨.disconnected, emptySnapshot⟩

/-- Initial `SharedState` as seen by a reader before any publish. -/
def initialShared : SharedState := ⟨.disconnected, emptySnapshot⟩

/-- One publish critical section (app.py lines 62-64 / 73-75): both fields
are written under the lock, so the update is atomic. -/
def Channel.publish (c : Channel) (s : SharedState) : Channel :=
  { c with state := s.state, data := s.data }

/-- One read critical section (`_ui_tick`, app.py lines 89-91): both fields
are read under the lock (the dict is shallow-copied while holding it). -/
def Channel.read (c : Channel) : SharedState := ⟨c.state, c.data⟩

-- ── Concrete cycle environments used by witnesses ────────────────────────────

/-- A cycle where `ensure_connected()` returned `False`. -/
def oracleDown : CycleOracle := ⟨false, ⟨false, false⟩, fun _ => .null, false⟩

/-- A connected cycle where every query returns a null response. -/
def oracleAllNull : CycleOracle := ⟨true, ⟨true, true⟩, fun _ => .null, false⟩

/-- A connected cycle where RPM reads a present zero and all other PIDs are
null (engine off as described in the spec's scenario). -/
def oracleRpmZero : CycleOracle :=
  ⟨true, ⟨true, true⟩, fun k => match k with | .rpm => .val ⟨0⟩ | _ => .null, false⟩

/-- A connected cycle with rpm = 2500 and speed = 45, others null. -/
def oracleLive : CycleOracle :=
  ⟨true, ⟨true, true⟩,
   fun k => match k with
     | .rpm => .val ⟨2500⟩
     | .speed => .val ⟨45⟩
     | _ => .null,
   false⟩

/-- A cycle whose link dropped between `ensure_connected()` and
`read_snapshot()`: the worker proceeds but the service sees no link. -/
def oracleDropped : CycleOracle := ⟨true, ⟨true, false⟩, fun _ => .val ⟨7⟩, false⟩

-- ── config.py constants used by the UI and logger ────────────────────────────

/-- config.py: warning/critical thresholds and UI constants. -/
def COOLANT_WARN_C : ℚ := 95

def COOLANT_CRIT_C : ℚ := 105

def RPM_MAX : ℚ := 7000

def RPM_WARN : ℚ := 5500

def RPM_CRIT : ℚ := 6500

/-- config.py line 35: seconds between automatic secondary-group rotations. -/
def ROTATION_INTERVAL_S : ℚ := 8

def SPEED_UNIT : String := "mph"

def TEMP_UNIT : String := "C"

def C_RPM : String := "#ff6b00"

def C_GOOD : String := "#00cc66"

def C_WARN : String := "#ffcc00"

def C_CRIT : String := "#ff3333"

def C_NEUTRAL : String := "#aaaaaa"

-- ── Number formatting helpers ────────────────────────────────────────────────

/-- Python `f"{x:.0f}"` (and `f"{x:,.0f}"`): render the value rounded to an
integer.  The exact tie-breaking mode (Python rounds half to even) and digit
grouping are abstracted; no claim depends on the digit string of a nonzero
number. -/
def pyfmt0 (x : ℚ) : String := toString (round x)

/-- Python `f"{x:.1f}"`: render the value rounded to one decimal place
(decimal spelling abstracted as a rational). -/
def pyfmt1 (x : ℚ) : String := toString (((round (10 * x) : ℤ) : ℚ) / 10)

/-- The Python conditional-expression / branch pattern
`f(v) if v else dflt` on an optional Quantity: `None` and a zero magnitude
take the default branch (truthiness, cf. `pyTruthy`). -/
def pyCond {α : Type} (v : Option Quantity) (f : Quantity → α) (dflt : α) : α :=
  match v with
  | none => dflt
  | some q => if q.magnitude = 0 then dflt else f q

-- ── logger.py ────────────────────────────────────────────────────────────────

/-- `DataLogger.log` (logger.py lines 41-56): the CSV row written for one
snapshot, given the formatted timestamp.  Every value field is guarded by
truthiness (`... if speed else ""`), so a failed query *and* a zero-magnitude
value both produce an empty field. -/
def log_row (ts : String) (data : Snapshot) : List String :=
  let speed := Snapshot.get data .speed
  let rpm := Snapshot.get data .rpm
  let coolant := Snapshot.get data .coolant_temp
  let throttle := Snapshot.get data .throttle_pos
  let load := Snapshot.get data .engine_load
  [ ts
  , pyCond speed (fun q => pyfmt1 q.to_mph) ""
  , pyCond rpm (fun q => pyfmt0 q.magnitude) ""
  , pyCond coolant (fun q => pyfmt1 q.to_degC) ""
  , pyCond throttle (fun q => pyfmt1 q.magnitude) ""
  , pyCond load (fun q => pyfmt1 q.magnitude) "" ]

-- ── ui_tk.py: colour helpers, formatters, secondary groups ───────────────────

/-- `_rpm_color` (ui_tk.py lines 39-44). -/
def rpm_color (val : ℚ) : String :=
  if val ≥ RPM_CRIT then C_CRIT
  else if val ≥ RPM_WARN then C_WARN
  else C_RPM

/-- `_coolant_color` (ui_tk.py lines 47-52). -/
def coolant_color (val_c : ℚ) : String :=
  if val_c ≥ COOLANT_CRIT_C then C_CRIT
  else if val_c ≥ COOLANT_WARN_C then C_WARN
  else C_GOOD

/-- `_fmt_coolant` (ui_tk.py lines 57-60): display string, fill fraction,
colour. -/
def fmt_coolant (raw : Quantity) : String × ℚ × String :=
  let c := raw.to_degC
  let disp := if TEMP_UNIT = "F" then pyfmt0 raw.to_degF ++ "°F" else pyfmt0 c ++ "°C"
  (disp, min (c / 120) 1, coolant_color c)

/-- `_fmt_throttle` (ui_tk.py lines 63-65). -/
def fmt_throttle (raw : Quantity) : String × ℚ × String :=
  let v := raw.magnitude
  (pyfmt0 v ++ "%", v / 100, C_NEUTRAL)

/-- `_fmt_load` (ui_tk.py lines 68-71). -/
def fmt_load (raw : Quantity) : String × ℚ × String :=
  let v := raw.magnitude
  let color := if v < 50 then C_GOOD else if v < 80 then C_WARN else C_CRIT
  (pyfmt0 v ++ "%", v / 100, color)

/-- One `(data_key, display_label, formatter_fn)` tuple of a secondary group
(ui_tk.py line 75). -/
abbrev MetricEntry := Key × String × (Quantity → String × ℚ × String)

/-- One secondary-panel group: a list of (at most three) metric entries. -/
abbrev MetricGroup := List MetricEntry

/-- `SECONDARY_GROUPS` (ui_tk.py lines 79-91): a single configured group
(the example second group is commented out in the source). -/
def SECONDARY_GROUPS : List MetricGroup :=
  [[(.coolant_temp, "COOLANT", fmt_coolant),
    (.throttle_pos, "THROTTLE", fmt_throttle),
    (.engine_load, "ENG LOAD", fmt_load)]]

-- ── ui_tk.py: DashboardUI state ──────────────────────────────────────────────

/-- The three values taken by `DashboardUI._screen` once set. -/
inductive Screen where
  | disconnected
  | waiting
  | live
deriving DecidableEq, Repr

/-- Contents of one secondary metric panel: title label, value label text and
colour, and the bar drawn beneath (fill fraction passed to `_draw_bar` and its
colour). -/
structure Panel where
  title : String
  text : String
  fg : String
  bar_pct : ℚ
  bar_color : String
deriving DecidableEq, Repr

/-- The rendered widget contents of the dashboard: everything the refresh and
animation code writes into Tk variables/labels/canvases. -/
structure Widgets where
  speed_text : String
  rpm_text : String
  rpm_fg : String
  rpm_bar_pct : ℚ
  rpm_bar_color : String
  panel0 : Panel
  panel1 : Panel
  panel2 : Panel
  disc_ring_color : String
  disc_retry_text : String
  wait_ring_color : String
deriving DecidableEq, Repr

/-- `DashboardUI` mutable state (ui_tk.py lines 153-157 and the widget
variables): `screen` is `self._screen`; `anim_pending` / `rotation_pending`
model whether an `after` callback handle is outstanding (`self._anim_after`,
`self._rotation_after`). -/
structure UIState where
  screen : Option Screen
  anim_pending : Bool
  rotation_pending : Bool
  rotation_idx : Nat
  live_data : Snapshot
  anim_disc_phase : Nat
  anim_disc_dots : Nat
  anim_wait_phase : Nat
  w : Widgets
deriving DecidableEq, Repr

/-- `_hide_all` (ui_tk.py lines 358-366): forget all frames and cancel any
outstanding animation/rotation callback. -/
def hide_all (ui : UIState) : UIState :=
  { ui with anim_pending := false, rotation_pending := false }

/-- `'●' * d + '○' * (3 - d)` of the retry label. -/
def retry_dots (d : Nat) : String :=
  String.mk (List.replicate d '●') ++ String.mk (List.replicate (3 - d) '○')

/-- `_animate_disc` (ui_tk.py lines 370-387): one tick of the pulsing ring and
scrolling dots; re-arms itself (anim_pending) while on the disconnected
screen. -/
def animate_disc (ui : UIState) : UIState :=
  if ui.screen ≠ some Screen.disconnected then ui
  else
    let phase := (ui.anim_disc_phase + 1) % 16
    let ring_c := if phase < 8 then C_CRIT else "#3a0000"
    let d := (ui.anim_disc_dots + 1) % 4
    { ui with
      anim_disc_phase := phase
      anim_disc_dots := d
      anim_pending := true
      w := { ui.w with
        disc_ring_color := ring_c
        disc_retry_text := "Retrying  " ++ retry_dots d } }

/-- `f"#00{g:02x}44"`: `g` is always two hex digits here (51 ≤ g ≤ 204), so
no padding is ever needed. -/
def hex2 (n : Nat) : String := String.mk (Nat.toDigits 16 n)

/-- `_animate_wait` (ui_tk.py lines 389-402): one tick of the green pulse.
Python's `int(...)` truncation coincides with `⌊·⌋` on these nonnegative
values. -/
def animate_wait (ui : UIState) : UIState :=
  if ui.screen ≠ some Screen.waiting then ui
  else
    let phase := (ui.anim_wait_phase + 1) % 40
    let t : ℚ := |((phase : ℚ) - 20)| / 20
    let g : ℤ := ⌊(51 : ℚ) + 153 * (1 - t)⌋
    { ui with
      anim_wait_phase := phase
      anim_pending := true
      w := { ui.w with wait_ring_color := "#00" ++ hex2 g.toNat ++ "44" } }

/-- `_start_rotation` (ui_tk.py lines 406-410): schedule the rotation callback
only if the interval is positive and more than one group is configured. -/
def start_rotation (interval : ℚ) (groups : List MetricGroup) (ui : UIState) : UIState :=
  if 0 < interval ∧ 1 < groups.length then { ui with rotation_pending := true }
  else ui

/-- The body of the per-panel update in `_refresh_live` (ui_tk.py lines
448-459): set the title, then either the "no data" indicator (`raw is None` —
note: identity test, not truthiness) or the formatted value. -/
def render_panel (data : Snapshot) (entry : MetricEntry) (old : Panel) : Panel :=
  let raw := Snapshot.get data entry.1
  match raw with
  | none =>
    { old with title := entry.2.1, text := "--", fg := C_NEUTRAL
               bar_pct := 0, bar_color := C_NEUTRAL }
  | some q =>
    let r := entry.2.2 q
    { old with title := entry.2.1, text := r.1, fg := r.2.2
               bar_pct := r.2.1, bar_color := r.2.2 }

/-- Panel `i` is updated only when the active group has an `i`-th entry
(`for i, ... in enumerate(group)`); otherwise it keeps its old contents. -/
def upd_panel (data : Snapshot) (entry : Option MetricEntry) (old : Panel) : Panel :=
  match entry with
  | none => old
  | some e => render_panel data e old

/-- The widget contents written by `_refresh_live` (ui_tk.py lines 421-459),
as a function of the snapshot, the active rotation index and the previous
widget contents.  Speed and RPM use truthiness (`if speed:` / `if rpm:`), so
a present zero renders as the placeholder. -/
def live_widgets (groups : List MetricGroup) (data : Snapshot) (idx : Nat)
    (w : Widgets) : Widgets :=
  let speed_text := pyCond (Snapshot.get data .speed)
    (fun q => pyfmt0 (if SPEED_UNIT = "mph" then q.to_mph else q.to_kph)) "--"
  let rpm4 := pyCond (Snapshot.get data .rpm)
    (fun q => (pyfmt0 q.magnitude, rpm_color q.magnitude,
               q.magnitude / RPM_MAX, rpm_color q.magnitude))
    ("----", C_RPM, 0, C_RPM)
  let group := (groups[idx % groups.length]?).getD []
  { w with
    speed_text := speed_text
    rpm_text := rpm4.1
    rpm_fg := rpm4.2.1
    rpm_bar_pct := rpm4.2.2.1
    rpm_bar_color := rpm4.2.2.2
    panel0 := upd_panel data group[0]? w.panel0
    panel1 := upd_panel data group[1]? w.panel1
    panel2 := upd_panel data group[2]? w.panel2 }

/-- `_refresh_live` as a state transformer: only the widget contents change. -/
def refresh_live (groups : List MetricGroup) (data : Snapshot) (ui : UIState) : UIState :=
  { ui with w := live_widgets groups data ui.rotation_idx ui.w }

/-- `show_disconnected` (ui_tk.py lines 328-336): no-op if already on the
disconnected screen; otherwise hide everything, enter the screen, reset the
animation counters and run the first animation tick. -/
def show_disconnected (ui : UIState) : UIState :=
  if ui.screen = some Screen.disconnected then ui
  else
    animate_disc
      { hide_all ui with
        screen := some Screen.disconnected
        anim_disc_phase := 0
        anim_disc_dots := 0 }

/-- `show_waiting` (ui_tk.py lines 338-345). -/
def show_waiting (ui : UIState) : UIState :=
  if ui.screen = some Screen.waiting then ui
  else
    animate_wait
      { hide_all ui with
        screen := some Screen.waiting
        anim_wait_phase := 0 }

/-- `show_live` (ui_tk.py lines 347-354): enter the live screen (and start the
rotation timer) only when not already on it; always store the data and
refresh the widgets. -/
def show_live (interval : ℚ) (groups : List MetricGroup) (data : Snapshot)
    (ui : UIState) : UIState :=
  let ui1 :=
    if ui.screen ≠ some Screen.live then
      start_rotation interval groups { hide_all ui with screen := some Screen.live }
    else ui
  refresh_live groups data { ui1 with live_data := data }

/-- `_rotate` (ui_tk.py lines 412-417): when the rotation timer fires in live
mode, advance the group index modulo the group count, re-render, re-arm. -/
def rotate (interval : ℚ) (groups : List MetricGroup) (ui : UIState) : UIState :=
  if ui.screen ≠ some Screen.live then ui
  else
    let ui1 := { ui with rotation_idx := (ui.rotation_idx + 1) % groups.length }
    start_rotation interval groups (refresh_live groups ui1.live_data ui1)

/-- The dispatch of `_ui_tick` (app.py lines 93-98) on the value read from the
channel. -/
def ui_render (interval : ℚ) (groups : List MetricGroup) (st : SharedState)
    (ui : UIState) : UIState :=
  match st.state with
  | .disconnected => show_disconnected ui
  | .waiting => show_waiting ui
  | .live => show_live interval groups st.data ui


-- ── Concrete UI states used by witnesses ─────────────────────────────────────

/-- `C_TEXT_PRI` (config.py): initial value-label colour. -/
def C_TEXT_PRI : String := "#f0f0f0"

/-- A freshly built `DashboardUI` before any `show_*` call: screen unset, no
callbacks outstanding, widgets holding their builder placeholders. -/
def uiInit : UIState :=
  { screen := none
    anim_pending := false
    rotation_pending := false
    rotation_idx := 0
    live_data := []
    anim_disc_phase := 0
    anim_disc_dots := 0
    anim_wait_phase := 0
    w := { speed_text := "--"
           rpm_text := "----"
           rpm_fg := C_RPM
           rpm_bar_pct := 0
           rpm_bar_color := C_RPM
           panel0 := ⟨"---", "--", C_TEXT_PRI, 0, C_NEUTRAL⟩
           panel1 := ⟨"---", "--", C_TEXT_PRI, 0, C_NEUTRAL⟩
           panel2 := ⟨"---", "--", C_TEXT_PRI, 0, C_NEUTRAL⟩
           disc_ring_color := C_CRIT
           disc_retry_text := "Retrying  ○○○"
           wait_ring_color := C_GOOD } }

/-- A snapshot whose present values all have magnitude zero. -/
def snapAllZero : Snapshot :=
  [(Key.rpm, some ⟨0⟩), (Key.speed, some ⟨0⟩), (Key.coolant_temp, some ⟨0⟩),
   (Key.throttle_pos, some ⟨0⟩), (Key.engine_load, some ⟨0⟩)]

-- ── Shared helper lemmas ─────────────────────────────────────────────────────


theorem snapshot_get_map (f : Key → Option Quantity) :
    ∀ k : Key, Snapshot.get (CMDS.map (fun k => (k, f k))) k = f k := by
  intro k
  cases k <;> rfl

theorem read_snapshot_keys (cs : ConnState) (results : Key → QueryResult) :
    (read_snapshot cs results).map Prod.fst = CMDS := by
  unfold read_snapshot
  split <;> simp [CMDS]

theorem has_data_all_none : has_data (CMDS.map (fun k => (k, none))) = false := by
  rfl

theorem Channel.read_publish (c : Channel) (s : SharedState) :
    Channel.read (Channel.publish c s) = s := rfl

theorem Channel.read_foldl (ps : List SharedState) :
    ∀ c : Channel,
      Channel.read (ps.foldl Channel.publish c) = ps.getLast?.getD (Channel.read c) := by
  induction ps with
  | nil => intro c; rfl
  | cons a t ih =>
    intro c
    rw [List.foldl_cons, ih, Channel.read_publish]
    cases t with
    | nil => rfl
    | cons b t' =>
      rw [List.getLast?_cons_cons]
      obtain ⟨x, hx⟩ := Option.isSome_iff_exists.mp
        (List.getLast?_isSome.mpr (List.cons_ne_nil b t'))
      rw [hx]
      rfl

theorem Channel.read_foldl_const (s : SharedState) :
    ∀ (ps : List SharedState) (c : Channel), (∀ x ∈ ps, x = s) → ps ≠ [] →
      Channel.read (ps.foldl Channel.publish c) = s := by
  intro ps
  induction ps with
  | nil => intro c _ hne; exact absurd rfl hne
  | cons a t ih =>
    intro c hall _
    rw [List.foldl_cons]
    cases t with
    | nil => rw [List.foldl_nil, Channel.read_publish]; exact hall a (by simp)
    | cons b t' =>
      exact ih (Channel.publish c a) (fun x hx => hall x (by simp [hx])) (by simp)

-- ── Claim theorems ───────────────────────────────────────────────────────────

/-- C1: every `(state, data)` pair written by `_obd_worker` satisfies the
pairing invariant: the state is `live` iff the snapshot has at least one
present value, and `disconnected` always pairs with the empty snapshot. -/
theorem published_pair_invariant (le : Bool) (o : CycleOracle) :
    ((obd_cycle le o).published.state = WorkerState.live
        ↔ has_data (obd_cycle le o).published.data = true)
    ∧ ((obd_cycle le o).published.state = WorkerState.disconnected
        → (obd_cycle le o).published.data = emptySnapshot) := by
  unfold obd_cycle
  rcases o with ⟨ec, conn, results, lr⟩
  cases ec with
  | false => simp [has_data, emptySnapshot]
  | true =>
    simp only [Bool.not_true, Bool.false_eq_true, if_false]
    cases h : has_data (read_snapshot conn results) <;> simp [h]

/-- C1 witness: on a disconnected cycle the invariant's `disconnected` half
yields the empty snapshot. -/
theorem published_pair_invariant_witness :
    (obd_cycle true oracleDown).published.data = emptySnapshot :=
  (published_pair_invariant true oracleDown).2 rfl

/-- C2 (counterexample): with the link connected, `rpm` reading a *present*
zero and every other PID null, `_obd_worker` classifies the cycle `live`,
not `waiting` — `any(v is not None ...)` counts a present zero as data. -/
theorem rpm_zero_not_waiting :
    (obd_cycle true oracleRpmZero).published.state = WorkerState.live
    ∧ WorkerState.live ≠ WorkerState.waiting := by
  constructor
  · rfl
  · intro h
    cases h

/-- C2 (amended): when the link is connected and `rpm` yields a present value
(of any magnitude, including zero) while the other PIDs may be anything, the
cycle is classified `live`. -/
theorem rpm_present_classifies_live (le : Bool) (o : CycleOracle) (q : Quantity)
    (h1 : o.ensure_connected = true)
    (h2 : o.conn.conn_present = true) (h3 : o.conn.is_connected = true)
    (h4 : o.results .rpm = .val q) :
    (obd_cycle le o).published.state = WorkerState.live := by
  unfold obd_cycle
  simp only [h1, Bool.not_true, Bool.false_eq_true, if_false]
  have : has_data (read_snapshot o.conn o.results) = true := by
    unfold read_snapshot
    simp [h2, h3, has_data, CMDS, h4, safe_query]
  simp [this]

/-- C2 witness: the amended theorem at the concrete engine-off cycle. -/
theorem rpm_present_classifies_live_witness :
    (obd_cycle true oracleRpmZero).published.state = WorkerState.live :=
  rpm_present_classifies_live true oracleRpmZero ⟨0⟩ rfl rfl rfl rfl

/-- C3: per-key failure isolation of `read_snapshot` on a connected link.
If two query oracles agree everywhere except key `k`, the snapshots agree on
every other key; a failing (`ex`) or null outcome at `k` only makes `k`
absent; and every configured key still appears in the snapshot. -/
theorem query_failure_isolated (cs : ConnState) (r r' : Key → QueryResult) (k : Key)
    (hp : cs.conn_present = true) (hc : cs.is_connected = true)
    (hagree : ∀ k', k' ≠ k → r k' = r' k') :
    (∀ k', k' ≠ k →
      Snapshot.get (read_snapshot cs r) k' = Snapshot.get (read_snapshot cs r') k')
    ∧ (r k = .ex ∨ r k = .null → Snapshot.get (read_snapshot cs r) k = none)
    ∧ (read_snapshot cs r).map Prod.fst = CMDS := by
  have hrs : ∀ (f : Key → QueryResult),
      read_snapshot cs f = CMDS.map (fun k => (k, safe_query (f k))) := by
    intro f; unfold read_snapshot; simp [hp, hc]
  refine ⟨?_, ?_, read_snapshot_keys cs r⟩
  · intro k' hk'
    rw [hrs r, hrs r', snapshot_get_map, snapshot_get_map, hagree k' hk']
  · intro hfail
    rw [hrs r, snapshot_get_map]
    rcases hfail with h | h <;> rw [h] <;> rfl

/-- C3 witness: a transport error on `speed` leaves `speed` absent while the
other keys read exactly as they would had `speed` succeeded. -/
theorem query_failure_isolated_witness :
    Snapshot.get
      (read_snapshot ⟨true, true⟩
        (fun k => if k = Key.speed then QueryResult.ex else QueryResult.val ⟨1⟩))
      Key.speed = none ∧
    Snapshot.get
      (read_snapshot ⟨true, true⟩
        (fun k => if k = Key.speed then QueryResult.ex else QueryResult.val ⟨1⟩))
      Key.rpm
      = Snapshot.get (read_snapshot ⟨true, true⟩ (fun _ => QueryResult.val ⟨1⟩)) Key.rpm := by
  have h := query_failure_isolated ⟨true, true⟩
    (fun k => if k = Key.speed then QueryResult.ex else QueryResult.val ⟨1⟩)
    (fun _ => QueryResult.val ⟨1⟩) Key.speed rfl rfl
    (by intro k' hk'; simp [hk'])
  exact ⟨h.2.1 (Or.inl rfl), h.1 Key.rpm (by simp)⟩

/-- C4: `logger.log` is invoked exactly when the cycle is classified `live`
and logging is enabled, with exactly the snapshot published that cycle; the
call is wrapped in `try/except Exception: pass`, so whether the logger raises
changes nothing about the cycle's observable outcome. -/
theorem logging_contained (le : Bool) (o : CycleOracle) :
    ((obd_cycle le o).logged = some (obd_cycle le o).published.data
        ↔ ((obd_cycle le o).published.state = WorkerState.live ∧ le = true))
    ∧ ((obd_cycle le o).logged = none
        ∨ (obd_cycle le o).logged = some (obd_cycle le o).published.data)
    ∧ (∀ b : Bool, obd_cycle le { o with logger_raises := b } = obd_cycle le o) := by
  refine ⟨?_, ?_, fun _ => rfl⟩ <;>
    · unfold obd_cycle
      rcases o with ⟨ec, conn, results, lr⟩
      cases ec with
      | false => simp
      | true =>
        simp only [Bool.not_true, Bool.false_eq_true, if_false]
        cases h : has_data (read_snapshot conn results) <;> cases le <;> simp [h]

/-- C5: a consumer read of the channel returns exactly the most recently
published `(state, data)` pair — or the initial `(disconnected, {})` pair
before any publish — and is always one published pair in full, never a mix. -/
theorem channel_read_last (ps : List SharedState) :
    Channel.read (ps.foldl Channel.publish initialChannel)
        = ps.getLast?.getD initialShared
    ∧ (Channel.read (ps.foldl Channel.publish initialChannel) = initialShared
        ∨ Channel.read (ps.foldl Channel.publish initialChannel) ∈ ps) := by
  have h := Channel.read_foldl ps initialChannel
  have hinit : Channel.read initialChannel = initialShared := rfl
  rw [hinit] at h
  refine ⟨h, ?_⟩
  rw [h]
  cases hl : ps.getLast? with
  | none => left; rfl
  | some s =>
    right
    simpa using List.mem_of_mem_getLast? (by rw [hl]; exact rfl)

/-- C6: whenever `ensure_connected()` fails, the cycle publishes
`(disconnected, {})`, queries no PIDs and logs nothing; over any run of
consecutive failing cycles every published pair is `(disconnected, {})`, so
after the first publish of the run the consumer reads `disconnected` — never
a stale earlier `live`/`waiting` pair — whatever the channel held before. -/
theorem disconnected_cycles (le : Bool) (o : CycleOracle)
    (os : List CycleOracle) (c : Channel)
    (h : o.ensure_connected = false)
    (hos : ∀ o' ∈ os, o'.ensure_connected = false) :
    (obd_cycle le o).published = ⟨WorkerState.disconnected, emptySnapshot⟩
    ∧ (obd_cycle le o).queried = []
    ∧ (obd_cycle le o).logged = none
    ∧ (∀ out ∈ worker_trace le os,
        out.published = ⟨WorkerState.disconnected, emptySnapshot⟩)
    ∧ (∀ pre post : List CycleOracle, os = pre ++ post → pre ≠ [] →
        Channel.read
          (((worker_trace le pre).map CycleOutcome.published).foldl Channel.publish c)
          = ⟨WorkerState.disconnected, emptySnapshot⟩) := by
  have hone : ∀ o' : CycleOracle, o'.ensure_connected = false →
      obd_cycle le o' = ⟨⟨.disconnected, emptySnapshot⟩, [], none⟩ := by
    intro o' ho'
    unfold obd_cycle
    rw [ho']
    rfl
  have htrace : ∀ out ∈ worker_trace le os,
      out.published = ⟨WorkerState.disconnected, emptySnapshot⟩ := by
    intro out hout
    rcases List.mem_map.mp hout with ⟨o', ho', rfl⟩
    rw [hone o' (hos o' ho')]
  refine ⟨by rw [hone o h], by rw [hone o h], by rw [hone o h], htrace, ?_⟩
  intro pre post hsplit hne
  apply Channel.read_foldl_const
  · intro x hx
    rcases List.mem_map.mp hx with ⟨out, hout, rfl⟩
    rcases List.mem_map.mp hout with ⟨o', ho', rfl⟩
    have : o' ∈ os := by rw [hsplit]; exact List.mem_append_left post ho'
    rw [hone o' (hos o' this)]
  · simpa [worker_trace] using hne

/-- C6 witness: one failing cycle overwrites a stale `live` channel value with
`(disconnected, {})`. -/
theorem disconnected_cycles_witness :
    Channel.read
      (((worker_trace true [oracleDown]).map CycleOutcome.published).foldl
        Channel.publish ⟨WorkerState.live, [(Key.rpm, some ⟨2500⟩)]⟩)
      = ⟨WorkerState.disconnected, emptySnapshot⟩ :=
  (disconnected_cycles true oracleDown [oracleDown]
      ⟨WorkerState.live, [(Key.rpm, some ⟨2500⟩)]⟩ rfl
      (by intro o' ho'; rw [List.mem_singleton.mp ho']; rfl)).2.2.2.2
    [oracleDown] [] rfl (by simp)

/-- C10: `read_snapshot` always returns a dict with exactly the configured
key set; with the connection absent or down at read time every key maps to
`None`; hence a link that drops between `ensure_connected()` and
`read_snapshot()` is published as `waiting` for that cycle, not
`disconnected`. -/
theorem snapshot_keys_fixed (le : Bool) (cs : ConnState)
    (r : Key → QueryResult) (o : CycleOracle) :
    ((read_snapshot cs r).map Prod.fst = CMDS)
    ∧ (¬(cs.conn_present = true ∧ cs.is_connected = true)
        → read_snapshot cs r = CMDS.map (fun k => (k, none)))
    ∧ (o.ensure_connected = true
        → ¬(o.conn.conn_present = true ∧ o.conn.is_connected = true)
        → (obd_cycle le o).published.state = WorkerState.waiting) := by
  have hdown : ∀ cs' : ConnState,
      ¬(cs'.conn_present = true ∧ cs'.is_connected = true) →
      ∀ r' : Key → QueryResult, read_snapshot cs' r' = CMDS.map (fun k => (k, none)) := by
    intro cs' hcs' r'
    unfold read_snapshot
    rcases cs' with ⟨p, ic⟩
    cases p <;> cases ic <;> simp_all
  refine ⟨read_snapshot_keys cs r, fun hcs => hdown cs hcs r, ?_⟩
  intro hec hconn
  unfold obd_cycle
  rw [hec]
  simp only [Bool.not_true, Bool.false_eq_true, if_false]
  rw [hdown o.conn hconn o.results, has_data_all_none]
  rfl

/-- C10 witness: a link that drops right after `ensure_connected()` succeeds
yields a `waiting` publish that cycle. -/
theorem snapshot_keys_fixed_witness :
    (obd_cycle true oracleDropped).published.state = WorkerState.waiting :=
  (snapshot_keys_fixed true ⟨true, false⟩ (fun _ => QueryResult.null)
      oracleDropped).2.2 rfl (by intro h; exact absurd h.2 (by decide))

-- ── UI helper lemmas ─────────────────────────────────────────────────────────

theorem upd_panel_idem (data : Snapshot) (e : Option MetricEntry) (p : Panel) :
    upd_panel data e (upd_panel data e p) = upd_panel data e p := by
  cases e with
  | none => rfl
  | some entry =>
    simp only [upd_panel, render_panel]

theorem live_widgets_idem (groups : List MetricGroup) (data : Snapshot)
    (idx : Nat) (w : Widgets) :
    live_widgets groups data idx (live_widgets groups data idx w)
      = live_widgets groups data idx w := by
  simp only [live_widgets, upd_panel_idem]

theorem refresh_live_idem (groups : List MetricGroup) (data : Snapshot)
    (ui : UIState) :
    refresh_live groups data (refresh_live groups data ui)
      = refresh_live groups data ui := by
  cases ui
  simp only [refresh_live, live_widgets_idem]

theorem start_rotation_screen (interval : ℚ) (groups : List MetricGroup)
    (ui : UIState) : (start_rotation interval groups ui).screen = ui.screen := by
  rw [start_rotation]
  split <;> rfl

theorem start_rotation_idx (interval : ℚ) (groups : List MetricGroup)
    (ui : UIState) :
    (start_rotation interval groups ui).rotation_idx = ui.rotation_idx := by
  rw [start_rotation]
  split <;> rfl

theorem show_disc_screen (ui : UIState) :
    (show_disconnected ui).screen = some Screen.disconnected := by
  by_cases h : ui.screen = some Screen.disconnected
  · rw [show_disconnected, if_pos h]
    exact h
  · rw [show_disconnected, if_neg h, animate_disc]
    simp [hide_all]

theorem show_wait_screen (ui : UIState) :
    (show_waiting ui).screen = some Screen.waiting := by
  by_cases h : ui.screen = some Screen.waiting
  · rw [show_waiting, if_pos h]
    exact h
  · rw [show_waiting, if_neg h, animate_wait]
    simp [hide_all]

theorem show_live_screen (interval : ℚ) (groups : List MetricGroup)
    (data : Snapshot) (ui : UIState) :
    (show_live interval groups data ui).screen = some Screen.live := by
  rw [show_live]
  by_cases h : ui.screen = some Screen.live
  · rw [if_neg (fun hne => hne h)]
    exact h
  · rw [if_pos h]
    exact start_rotation_screen interval groups _

theorem set_live_data_self (ui : UIState) (d : Snapshot) (h : ui.live_data = d) :
    { ui with live_data := d } = ui := by
  cases ui
  cases h
  rfl

theorem show_disc_idem (ui : UIState) :
    show_disconnected (show_disconnected ui) = show_disconnected ui := by
  conv_lhs => rw [show_disconnected]
  rw [if_pos (show_disc_screen ui)]

theorem show_wait_idem (ui : UIState) :
    show_waiting (show_waiting ui) = show_waiting ui := by
  conv_lhs => rw [show_waiting]
  rw [if_pos (show_wait_screen ui)]

theorem show_live_data (interval : ℚ) (groups : List MetricGroup)
    (data : Snapshot) (ui : UIState) :
    (show_live interval groups data ui).live_data = data := rfl

theorem show_live_idem (interval : ℚ) (groups : List MetricGroup)
    (data : Snapshot) (ui : UIState) :
    show_live interval groups data (show_live interval groups data ui)
      = show_live interval groups data ui := by
  conv_lhs => rw [show_live]
  rw [if_neg (fun hne => hne (show_live_screen interval groups data ui)),
    set_live_data_self _ _ (show_live_data interval groups data ui)]
  conv_rhs => rw [show_live]
  exact refresh_live_idem groups data _

/-- C7: re-rendering the same SharedState in consecutive refresh ticks is
idempotent: the second render leaves the UI state (widget contents, timers,
counters) exactly as the first left it, and when the classification already
matches the current screen the mode-entry path is skipped entirely
(`show_disconnected`/`show_waiting` return the state unchanged; `show_live`
only stores the data and refreshes, without `_hide_all`/`_start_rotation`). -/
theorem render_idempotent (interval : ℚ) (groups : List MetricGroup)
    (st : SharedState) (ui : UIState) :
    (ui_render interval groups st (ui_render interval groups st ui)
        = ui_render interval groups st ui)
    ∧ (ui.screen = some Screen.disconnected → show_disconnected ui = ui)
    ∧ (ui.screen = some Screen.waiting → show_waiting ui = ui)
    ∧ (ui.screen = some Screen.live →
        show_live interval groups st.data ui
          = refresh_live groups st.data { ui with live_data := st.data }) := by
  refine ⟨?_, ?_, ?_, ?_⟩
  · rcases st with ⟨s, d⟩
    cases s
    · exact show_disc_idem ui
    · exact show_wait_idem ui
    · exact show_live_idem interval groups d ui
  · intro h
    rw [show_disconnected, if_pos h]
  · intro h
    rw [show_waiting, if_pos h]
  · intro h
    rw [show_live, if_neg (fun hne => hne h)]

/-- C7 witness: a second `show_disconnected` on the disconnected screen is a
no-op. -/
theorem render_idempotent_witness :
    show_disconnected { uiInit with screen := some Screen.disconnected }
      = { uiInit with screen := some Screen.disconnected } :=
  (render_idempotent ROTATION_INTERVAL_S SECONDARY_GROUPS initialShared
    { uiInit with screen := some Screen.disconnected }).2.1 rfl

/-- C8: when the rotation timer fires in live mode, `_rotate` advances the
active group index by exactly one modulo the number of configured groups (and
does nothing outside live mode); `_start_rotation` schedules the timer iff
the configured interval is positive and more than one group is configured, so
an interval ≤ 0 or a single group leaves the state untouched — no automatic
advance ever happens. -/
theorem rotation_behavior (interval : ℚ) (groups : List MetricGroup)
    (ui : UIState) :
    (ui.screen = some Screen.live →
      (rotate interval groups ui).rotation_idx
        = (ui.rotation_idx + 1) % groups.length)
    ∧ (ui.screen ≠ some Screen.live → rotate interval groups ui = ui)
    ∧ ((interval ≤ 0 ∨ groups.length ≤ 1)
        → start_rotation interval groups ui = ui)
    ∧ (0 < interval → 1 < groups.length
        → (start_rotation interval groups ui).rotation_pending = true) := by
  refine ⟨?_, ?_, ?_, ?_⟩
  · intro h
    rw [rotate, if_neg (fun hne => hne h), start_rotation_idx]
    rfl
  · intro h
    rw [rotate, if_pos h]
  · intro h
    rw [start_rotation, if_neg]
    rintro ⟨h1, h2⟩
    rcases h with h | h
    · exact absurd h1 (not_lt.mpr h)
    · exact absurd h2 (not_lt.mpr h)
  · intro h1 h2
    rw [start_rotation, if_pos ⟨h1, h2⟩]

/-- C8 witness: a timer fire in live mode advances the index modulo the group
count, and with the repository's single configured group `_start_rotation`
never schedules the timer. -/
theorem rotation_behavior_witness :
    (rotate ROTATION_INTERVAL_S SECONDARY_GROUPS
        { uiInit with screen := some Screen.live }).rotation_idx
      = (({ uiInit with screen := some Screen.live } : UIState).rotation_idx + 1)
          % SECONDARY_GROUPS.length
    ∧ start_rotation ROTATION_INTERVAL_S SECONDARY_GROUPS uiInit = uiInit :=
  ⟨(rotation_behavior ROTATION_INTERVAL_S SECONDARY_GROUPS
      { uiInit with screen := some Screen.live }).1 rfl,
   (rotation_behavior ROTATION_INTERVAL_S SECONDARY_GROUPS uiInit).2.2.1
      (Or.inr (by decide))⟩

/-- C9: in live mode a present value of magnitude zero is indistinguishable
from an absent one: speed/RPM render their placeholders, and every CSV value
field for a zero-magnitude reading is the empty string — both sites test
truthiness (`if v:`), not presence (`is not None`). -/
theorem zero_magnitude_reads_absent (groups : List MetricGroup)
    (data : Snapshot) (ui : UIState) (ts : String) (q : Quantity) :
    (Snapshot.get data .speed = some q → q.magnitude = 0 →
      (refresh_live groups data ui).w.speed_text = "--")
    ∧ (Snapshot.get data .speed = none →
      (refresh_live groups data ui).w.speed_text = "--")
    ∧ (Snapshot.get data .rpm = some q → q.magnitude = 0 →
      (refresh_live groups data ui).w.rpm_text = "----")
    ∧ (Snapshot.get data .rpm = none →
      (refresh_live groups data ui).w.rpm_text = "----")
    ∧ (Snapshot.get data .speed = some q → q.magnitude = 0 →
      (log_row ts data)[1]? = some "")
    ∧ (Snapshot.get data .rpm = some q → q.magnitude = 0 →
      (log_row ts data)[2]? = some "")
    ∧ (Snapshot.get data .coolant_temp = some q → q.magnitude = 0 →
      (log_row ts data)[3]? = some "")
    ∧ (Snapshot.get data .throttle_pos = some q → q.magnitude = 0 →
      (log_row ts data)[4]? = some "")
    ∧ (Snapshot.get data .engine_load = some q → q.magnitude = 0 →
      (log_row ts data)[5]? = some "") := by
  refine ⟨?_, ?_, ?_, ?_, ?_, ?_, ?_, ?_, ?_⟩ <;> intro h
  · intro hz
    simp [refresh_live, live_widgets, pyCond, h, hz]
  · simp [refresh_live, live_widgets, pyCond, h]
  · intro hz
    simp [refresh_live, live_widgets, pyCond, h, hz]
  · simp [refresh_live, live_widgets, pyCond, h]
  all_goals intro hz
  all_goals simp [log_row, pyCond, h, hz]

/-- C9 witness: on a snapshot whose readings are all present zeros the speed
and RPM widgets show their placeholders and the logged RPM field is empty. -/
theorem zero_magnitude_reads_absent_witness :
    (refresh_live SECONDARY_GROUPS snapAllZero uiInit).w.speed_text = "--"
    ∧ (refresh_live SECONDARY_GROUPS snapAllZero uiInit).w.rpm_text = "----"
    ∧ (log_row "2026-10-12 00:00:00" snapAllZero)[2]? = some "" :=
  ⟨(zero_magnitude_reads_absent SECONDARY_GROUPS snapAllZero uiInit
      "2026-10-12 00:00:00" ⟨0⟩).1 rfl rfl,
   (zero_magnitude_reads_absent SECONDARY_GROUPS snapAllZero uiInit
      "2026-10-12 00:00:00" ⟨0⟩).2.2.1 rfl rfl,
   (zero_magnitude_reads_absent SECONDARY_GROUPS snapAllZero uiInit
      "2026-10-12 00:00:00" ⟨0⟩).2.2.2.2.2.1 rfl rfl⟩
